import Mathlib

/-!
Verification development for the Cog/Dinghy browser shell.

The development shallowly embeds the two source files of the repository:

* dinghy.c — the launcher binary: CLI/environment handling that resolves
  the start URL inside the handle-local-options callback.
* core/cog-shell.c — the CogShell object: request-handler registry,
  startup (URI scheme registration and the create-view signal), and
  construction (name defaulting, derived data/cache directories).

External library behaviour the code relies on is modelled explicitly and
is documented at each definition:

* GObject identity is modelled by Nat identifiers; a C pointer that may
  be NULL is modelled as Option.
* File-system and locale facts used by dinghy.c are fields of an
  environment record, so that theorems quantify over every behaviour the
  external calls can exhibit.
-/

/-! ## Launcher model (dinghy.c) -/

/-- CLI option state filled in by GOption before the handle-local-options
callback runs: the two boolean flags and the remaining positional
arguments (none models a NULL GStrv, i.e. no positional argument). -/
structure DinghyOptions where
  version : Bool
  print_appid : Bool
  arguments : Option (List String)
deriving DecidableEq, Repr

/-- Ambient facts used by on_handle_local_options that come from outside
the repository: the compiled-in version string, the application id, the
DINGHY_URL environment variable, and the behaviour of the GLib calls
g_file_is_native / g_file_query_exists (combined, on the GFile produced
by g_file_new_for_commandline_arg), g_file_get_uri, and g_locale_to_utf8
(none models a conversion failure, i.e. invalid text in the process
locale encoding). -/
structure DinghyEnv where
  version_string : String
  appid : Option String
  dinghy_url : Option String
  file_is_native_and_exists : String → Bool
  file_get_uri : String → String
  locale_to_utf8 : String → Option String

/-- Outcome of the handle-local-options callback. A non-negative return
value makes GApplication exit with that status after the recorded
standard output; returning -1 continues startup after
dy_launcher_set_home_uri stored the resolved URI. -/
inductive LocalOptionsOutcome where
  | handled (status : Nat) (stdout : String)
  | continue_startup (home_uri : String)
deriving DecidableEq, Repr

/-- Lines 56-74 of dinghy.c: interpret the resolved value as a local
file first (existing native file becomes its canonical file URI via
g_file_get_uri), otherwise convert it from the locale encoding to UTF-8,
failing with EXIT_FAILURE when the conversion fails; on success the
resulting string is handed to dy_launcher_set_home_uri and -1 is
returned. -/
def resolve_and_set (env : DinghyEnv) (uri : String) : LocalOptionsOutcome :=
  if env.file_is_native_and_exists uri then
    LocalOptionsOutcome.continue_startup (env.file_get_uri uri)
  else
    match env.locale_to_utf8 uri with
    | none => LocalOptionsOutcome.handled 1 ""
    | some utf8_uri => LocalOptionsOutcome.continue_startup utf8_uri

/-- on_handle_local_options from dinghy.c. The version flag prints the
version string and a newline and exits 0; the print-appid flag prints
the application id (when set) and a newline and exits 0; otherwise the
start URL is taken from the single positional argument, else from
DINGHY_URL, else the callback fails with EXIT_FAILURE; more than one
positional argument also fails with EXIT_FAILURE. A non-NULL GStrv
produced by GOption is never empty, so the arguments list is inspected
with headD only after the length test, mirroring arguments[0]. -/
def on_handle_local_options (env : DinghyEnv) (opts : DinghyOptions) : LocalOptionsOutcome :=
  if opts.version then
    LocalOptionsOutcome.handled 0 (env.version_string ++ "\n")
  else if opts.print_appid then
    LocalOptionsOutcome.handled 0
      (match env.appid with
       | some appid => appid ++ "\n"
       | none => "")
  else
    match opts.arguments with
    | none =>
      match env.dinghy_url with
      | none => LocalOptionsOutcome.handled 1 ""
      | some uri => resolve_and_set env uri
    | some args =>
      if args.length > 1 then
        LocalOptionsOutcome.handled 1 ""
      else
        resolve_and_set env (args.headD "")

/-- Sample environment used by witnesses: UTF-8 locale (the conversion
is the identity), no existing native files, no DINGHY_URL. -/
def sample_env : DinghyEnv :=
  { version_string := "0.1.0"
  , appid := some "com.example.dinghy"
  , dinghy_url := none
  , file_is_native_and_exists := fun _ => false
  , file_get_uri := fun s => "file://" ++ s
  , locale_to_utf8 := fun s => some s }

/-- Environment where DINGHY_URL is an URL that is not a native file. -/
def url_env : DinghyEnv :=
  { sample_env with dinghy_url := some "https://example.org" }

/-- Environment where DINGHY_URL names an existing native file. -/
def file_url_env : DinghyEnv :=
  { sample_env with
    dinghy_url := some "/srv/www"
  , file_is_native_and_exists := fun s => s == "/srv/www" }

/-- Environment with one existing native file /tmp/index.html. -/
def file_arg_env : DinghyEnv :=
  { sample_env with
    file_is_native_and_exists := fun s => s == "/tmp/index.html" }

/-- Environment modelling a Latin-1 process locale. C byte strings are
modelled by their Latin-1 decoding: the argument bytes 63 61 66 E9
(valid Latin-1 text) are the string caf + U+00E9, and g_locale_to_utf8
turns them into the UTF-8 bytes 63 61 66 C3 A9, which decode under
Latin-1 to caf + U+00C3 + U+00A9. The conversion therefore succeeds but
returns a different byte string. -/
def latin1_env : DinghyEnv :=
  { sample_env with
    locale_to_utf8 := fun s =>
      if s = "café" then some "cafÃ©" else some s }


/-! ## Shell model (core/cog-shell.c): request handlers and startup -/

/-- A WebKitWebView as far as the shell observes it: the identities of
the settings and context objects it was built with (none models NULL)
and its own object identity. webkit_web_view_get_settings and
webkit_web_view_get_context return exactly the construction values. -/
structure WebView where
  settings : Option Nat
  context : Option Nat
  view_id : Nat
deriving DecidableEq, Repr

/-- RequestHandlerMapEntry from cog-shell.c: the handler object identity
and the registered flag. The code initialises the flag to FALSE in
request_handler_map_entry_new and reads it in
request_handler_map_entry_register, but never sets it to TRUE. -/
structure RequestHandlerMapEntry where
  handler : Nat
  registered : Bool
deriving DecidableEq, Repr

/-- The CogShellPrivate fields the handler and startup logic touches,
plus reg_calls: the trace of webkit_web_context_register_uri_scheme
invocations the shell has issued, in order, recorded by the scheme
passed. The hash table keyed by scheme is modelled as an association
list in insertion order; iteration order of g_hash_table_foreach is
unspecified in C, and no theorem below depends on it beyond the
multiset of emitted registrations. -/
structure CogShellState where
  web_settings : Option Nat
  web_context : Option Nat
  web_view : Option WebView
  request_handlers : List (String × RequestHandlerMapEntry)
  reg_calls : List String
deriving DecidableEq, Repr

/-- request_handler_map_entry_register, lines 109-121: when the context
is non-NULL and the entry is not marked registered, ask the engine to
register the scheme. The returned list is the registration calls this
step emits; the entry itself is not modified (the C function never
writes entry->registered). -/
def request_handler_map_entry_register (scheme : String)
    (entry : RequestHandlerMapEntry) (context : Option Nat) : List String :=
  if context.isSome && !entry.registered then [scheme] else []

/-- g_hash_table_lookup on the scheme-keyed table. -/
def lookup_handler :
    List (String × RequestHandlerMapEntry) → String →
      Option RequestHandlerMapEntry
  | [], _ => none
  | (k, e) :: rest, s => if k = s then some e else lookup_handler rest s

/-- In-place update of the entry stored for a scheme (the C code mutates
the entry found by g_hash_table_lookup). -/
def replace_handler :
    List (String × RequestHandlerMapEntry) → String →
      RequestHandlerMapEntry → List (String × RequestHandlerMapEntry)
  | [], _, _ => []
  | (k, e) :: rest, s, e2 =>
      if k = s then (k, e2) :: rest else (k, e) :: replace_handler rest s e2

/-- cog_shell_set_request_handler, lines 479-510: insert a fresh entry
(registered = FALSE) when the scheme is new, otherwise swap the stored
handler when it differs; in both cases finish by calling
request_handler_map_entry_register with the current context. -/
def cog_shell_set_request_handler (st : CogShellState) (scheme : String)
    (handler : Nat) : CogShellState :=
  match lookup_handler st.request_handlers scheme with
  | none =>
      let entry : RequestHandlerMapEntry :=
        { handler := handler, registered := false }
      { st with
        request_handlers := st.request_handlers ++ [(scheme, entry)]
      , reg_calls := st.reg_calls ++
          request_handler_map_entry_register scheme entry st.web_context }
  | some entry0 =>
      let entry : RequestHandlerMapEntry :=
        if entry0.handler ≠ handler then
          { entry0 with handler := handler }
        else entry0
      { st with
        request_handlers := replace_handler st.request_handlers scheme entry
      , reg_calls := st.reg_calls ++
          request_handler_map_entry_register scheme entry st.web_context }

/-- The g_hash_table_foreach loop of cog_shell_startup_base, lines
130-134: run request_handler_map_entry_register on every stored entry
with the shell context, concatenating the emitted registration calls. -/
def register_pending (handlers : List (String × RequestHandlerMapEntry))
    (context : Option Nat) : List String :=
  handlers.foldl
    (fun acc p => acc ++ request_handler_map_entry_register p.fst p.snd context)
    []

/-- cog_shell_create_view_base, lines 61-68: the default class handler
of the create-view signal builds a view from the shell settings and
context; fresh is the identity of the newly allocated view object. -/
def cog_shell_create_view_base (st : CogShellState) (fresh : Nat) : WebView :=
  { settings := st.web_settings, context := st.web_context, view_id := fresh }

/-- Emission of the create-view signal, declared with
g_signal_accumulator_first_wins and G_SIGNAL_RUN_LAST (lines 274-283).
Per the GLib semantics of that accumulator, the return value of the
first handler that runs is taken and no further handler runs; connected
listeners run before the RUN_LAST class closure, so the class default
(base_result) runs only when no listener is connected. Each listener is
modelled by the (nullable) view it returns. -/
def emit_create_view (listeners : List (Option WebView))
    (base_result : WebView) : Option WebView :=
  match listeners with
  | [] => some base_result
  | l :: _ => l

/-- webkit_web_view_get_settings lifted to a nullable view: on NULL the
precondition check makes it return NULL. -/
def webkit_web_view_get_settings : Option WebView → Option Nat
  | none => none
  | some v => v.settings

/-- webkit_web_view_get_context lifted to a nullable view. -/
def webkit_web_view_get_context : Option WebView → Option Nat
  | none => none
  | some v => v.context

/-- Result of cog_shell_startup_base: either the updated shell state, or
abort via a failed g_assert (lines 144-145) — also reached when the
emitted view is NULL, since both getters then return NULL while the
shell settings and context of a constructed shell are non-NULL. -/
inductive StartupOutcome where
  | ok (st : CogShellState)
  | assertion_failure
deriving DecidableEq, Repr

/-- cog_shell_startup_base, lines 125-146: register every entry the
foreach loop visits, emit create-view, keep the resulting view, then
assert that the view settings and context are pointer-identical to the
shell ones; a failed assertion aborts the process. -/
def cog_shell_startup_base (st : CogShellState)
    (listeners : List (Option WebView)) (fresh : Nat) : StartupOutcome :=
  let st1 : CogShellState :=
    { st with reg_calls := st.reg_calls ++
        register_pending st.request_handlers st.web_context }
  let mv : Option WebView :=
    emit_create_view listeners (cog_shell_create_view_base st1 fresh)
  if webkit_web_view_get_settings mv = st1.web_settings ∧
     webkit_web_view_get_context mv = st1.web_context then
    StartupOutcome.ok { st1 with web_view := mv }
  else
    StartupOutcome.assertion_failure

/-- A freshly constructed shell: settings object 0, context object 1
(both always created by cog_shell_constructed), no view, no handlers. -/
def base_shell : CogShellState :=
  { web_settings := some 0
  , web_context := some 1
  , web_view := none
  , request_handlers := []
  , reg_calls := [] }


/-! ## Shell construction model (cog_shell_init / cog_shell_constructed) -/

/-- Ambient facts for shell construction: g_get_prgname (none when no
program name was set) and the XDG base directories returned by
g_get_user_data_dir and g_get_user_cache_dir. -/
structure ShellConstructEnv where
  prgname : Option String
  user_data_dir : String
  user_cache_dir : String

/-- g_build_filename with two elements where the second may be NULL:
a NULL element terminates the vararg list, so the result is just the
first path; otherwise the two are joined with the separator. -/
def g_build_filename2 (base : String) (element : Option String) : String :=
  match element with
  | none => base
  | some s => base ++ "/" ++ s

/-- The observable result of constructing a CogShell: its name and the
data and cache directories wired into the website data manager of the
context created by cog_shell_constructed. -/
structure ConstructedShell where
  name : Option String
  data_dir : String
  cache_dir : String
deriving DecidableEq, Repr

/-- cog_shell_init, lines 368-374: the instance initialiser runs while
the instance is created, before any property assignment, so priv name
is still NULL, the guard passes, and a copy of the program name is
stored (g_strdup of NULL is NULL). -/
def cog_shell_init_name (env : ShellConstructEnv) : Option String :=
  env.prgname

/-- The construct-time assignment of the name property. The property is
declared G_PARAM_CONSTRUCT_ONLY (lines 294-301), and g_object_new
assigns every construct property after instance initialisation,
substituting the pspec default (NULL here) when the caller did not pass
the property; cog_shell_set_property (lines 189-191) stores the value
unconditionally. The value written by cog_shell_init is therefore
overwritten on every construction path, which is why the prior value is
ignored. name_param is none when the property was not passed to
g_object_new (the pspec default NULL is assigned), and some v when it
was passed holding v. -/
def name_property_assign (_prior : Option String)
    (name_param : Option (Option String)) : Option String :=
  match name_param with
  | none => none
  | some v => v

/-- GObject construction of a CogShell: cog_shell_init runs first, then
the construct property assignment of name, and finally
cog_shell_constructed (lines 204-225) derives the data and cache
directories from the resulting name. -/
def cog_shell_construct (env : ShellConstructEnv)
    (name_param : Option (Option String)) : ConstructedShell :=
  let name_final : Option String :=
    name_property_assign (cog_shell_init_name env) name_param
  { name := name_final
  , data_dir := g_build_filename2 env.user_data_dir name_final
  , cache_dir := g_build_filename2 env.user_cache_dir name_final }

/-- cog_shell_new, lines 384-390: always passes the name property to
g_object_new, whatever its value, NULL included. -/
def cog_shell_new (env : ShellConstructEnv) (name : Option String) :
    ConstructedShell :=
  cog_shell_construct env (some name)

/-- A concrete construction environment with program name cog. -/
def construct_env : ShellConstructEnv :=
  { prgname := some "cog"
  , user_data_dir := "/home/user/.local/share"
  , user_cache_dir := "/home/user/.cache" }

/-! ## Theorems -/

/-- Claim C9: with the version flag set, the callback prints exactly the
version string followed by a newline to standard output and returns
EXIT_SUCCESS, so the application exits 0; no URL resolution happens and
startup is skipped (the outcome is not continue_startup). -/
theorem c9_version_flag (env : DinghyEnv) (opts : DinghyOptions)
    (hv : opts.version = true) :
    on_handle_local_options env opts =
      LocalOptionsOutcome.handled 0 (env.version_string ++ "\n") := by
  simp [on_handle_local_options, hv]

/-- Witness for C9 at a concrete environment and option state. -/
theorem c9_version_flag_witness :
    on_handle_local_options sample_env
        { version := true, print_appid := false, arguments := none } =
      LocalOptionsOutcome.handled 0 ("0.1.0" ++ "\n") :=
  c9_version_flag sample_env
    { version := true, print_appid := false, arguments := none } rfl

/-- Claim C4: with both flags absent and two or more positional
arguments, the callback fails with EXIT_FAILURE whatever DINGHY_URL and
the rest of the environment are, and no URL reaches the shell (the
outcome is handled, not continue_startup). -/
theorem c4_multiple_arguments_fail (env : DinghyEnv) (opts : DinghyOptions)
    (args : List String)
    (hv : opts.version = false) (hp : opts.print_appid = false)
    (ha : opts.arguments = some args) (hlen : 1 < args.length) :
    on_handle_local_options env opts = LocalOptionsOutcome.handled 1 "" := by
  simp [on_handle_local_options, hv, hp, ha, hlen]

/-- Witness for C4: two positional arguments with DINGHY_URL set. -/
theorem c4_multiple_arguments_fail_witness :
    on_handle_local_options url_env
        { version := false, print_appid := false
        , arguments := some ["a.html", "b.html"] } =
      LocalOptionsOutcome.handled 1 "" :=
  c4_multiple_arguments_fail url_env
    { version := false, print_appid := false
    , arguments := some ["a.html", "b.html"] }
    ["a.html", "b.html"] rfl rfl rfl (by decide)

/-- Claim C7: a positional argument naming an existing file on a native
filesystem resolves to the canonical URI produced by the standard
URI-from-path conversion (g_file_get_uri), whatever the locale
conversion would do — the file-path interpretation takes precedence
because the locale branch is never reached. -/
theorem c7_existing_file_becomes_uri (env : DinghyEnv) (opts : DinghyOptions)
    (arg : String)
    (hv : opts.version = false) (hp : opts.print_appid = false)
    (ha : opts.arguments = some [arg])
    (hex : env.file_is_native_and_exists arg = true) :
    on_handle_local_options env opts =
      LocalOptionsOutcome.continue_startup (env.file_get_uri arg) := by
  simp [on_handle_local_options, resolve_and_set, hv, hp, ha, hex]

/-- Witness for C7 at a concrete existing file. -/
theorem c7_existing_file_becomes_uri_witness :
    on_handle_local_options file_arg_env
        { version := false, print_appid := false
        , arguments := some ["/tmp/index.html"] } =
      LocalOptionsOutcome.continue_startup ("file://" ++ "/tmp/index.html") :=
  c7_existing_file_becomes_uri file_arg_env
    { version := false, print_appid := false
    , arguments := some ["/tmp/index.html"] }
    "/tmp/index.html" rfl rfl rfl (by decide)

/-- Counterexample for claim C3: with no positional argument, a
DINGHY_URL value that names an existing native file does not become the
shell URL unchanged — the file-path interpretation rewrites it to the
canonical file URI, so the shell URL is file:///srv/www, not /srv/www. -/
theorem c3_dinghy_url_not_taken_verbatim :
    on_handle_local_options file_url_env
        { version := false, print_appid := false, arguments := none } =
      LocalOptionsOutcome.continue_startup ("file://" ++ "/srv/www") ∧
    on_handle_local_options file_url_env
        { version := false, print_appid := false, arguments := none } ≠
      LocalOptionsOutcome.continue_startup "/srv/www" := by
  constructor
  · rfl
  · decide

/-- Claim C3 as amended: the start URL source is resolved in order —
the single positional argument when one is given, else DINGHY_URL when
set, else the callback fails with EXIT_FAILURE and no shell URL is set;
and when DINGHY_URL alone supplies the value, the shell URL becomes
exactly that value provided the value does not name an existing native
file and the locale to UTF-8 conversion returns it unchanged. -/
theorem c3_url_resolution_order_amended :
    (∀ (env : DinghyEnv) (opts : DinghyOptions),
      opts.version = false → opts.print_appid = false →
      opts.arguments = none → env.dinghy_url = none →
      on_handle_local_options env opts = LocalOptionsOutcome.handled 1 "") ∧
    (∀ (env : DinghyEnv) (opts : DinghyOptions) (arg : String),
      opts.version = false → opts.print_appid = false →
      opts.arguments = some [arg] →
      on_handle_local_options env opts = resolve_and_set env arg) ∧
    (∀ (env : DinghyEnv) (opts : DinghyOptions) (u : String),
      opts.version = false → opts.print_appid = false →
      opts.arguments = none → env.dinghy_url = some u →
      env.file_is_native_and_exists u = false →
      env.locale_to_utf8 u = some u →
      on_handle_local_options env opts =
        LocalOptionsOutcome.continue_startup u) := by
  refine ⟨?_, ?_, ?_⟩
  · intro env opts hv hp ha hu
    simp [on_handle_local_options, hv, hp, ha, hu]
  · intro env opts arg hv hp ha
    simp [on_handle_local_options, hv, hp, ha]
  · intro env opts u hv hp ha hu hnf hconv
    simp [on_handle_local_options, resolve_and_set, hv, hp, ha, hu, hnf, hconv]

/-- Witness for the amended C3: DINGHY_URL alone supplies an ordinary
URL, no positional arguments, and the shell URL becomes exactly it. -/
theorem c3_url_resolution_order_amended_witness :
    on_handle_local_options url_env
        { version := false, print_appid := false, arguments := none } =
      LocalOptionsOutcome.continue_startup "https://example.org" :=
  c3_url_resolution_order_amended.2.2 url_env
    { version := false, print_appid := false, arguments := none }
    "https://example.org" rfl rfl rfl rfl rfl rfl

/-- Counterexample for claim C8: in a non-UTF-8 process locale, a value
that is valid text and not a file path is not handed to the shell
unchanged — g_locale_to_utf8 transcodes it. With the Latin-1 locale
model, the argument bytes caf + E9 resolve to the different byte string
caf + C3 + A9. -/
theorem c8_locale_conversion_changes_value :
    on_handle_local_options latin1_env
        { version := false, print_appid := false, arguments := some ["café"] } =
      LocalOptionsOutcome.continue_startup "cafÃ©" ∧
    on_handle_local_options latin1_env
        { version := false, print_appid := false, arguments := some ["café"] } ≠
      LocalOptionsOutcome.continue_startup "café" := by
  constructor
  · rfl
  · decide

/-- Claim C8 as amended: a command-line or DINGHY_URL value that does
not name an existing native file and is valid text in the process
locale resolves to its locale to UTF-8 conversion, and that string is
handed to the shell; it equals the original value exactly when the
conversion leaves the value unchanged (always the case for a UTF-8
locale). -/
theorem c8_resolved_value_is_utf8_conversion_amended :
    (∀ (env : DinghyEnv) (opts : DinghyOptions) (arg u : String),
      opts.version = false → opts.print_appid = false →
      opts.arguments = some [arg] →
      env.file_is_native_and_exists arg = false →
      env.locale_to_utf8 arg = some u →
      on_handle_local_options env opts =
        LocalOptionsOutcome.continue_startup u) ∧
    (∀ (env : DinghyEnv) (opts : DinghyOptions) (u v : String),
      opts.version = false → opts.print_appid = false →
      opts.arguments = none → env.dinghy_url = some u →
      env.file_is_native_and_exists u = false →
      env.locale_to_utf8 u = some v →
      on_handle_local_options env opts =
        LocalOptionsOutcome.continue_startup v) := by
  constructor
  · intro env opts arg u hv hp ha hnf hconv
    simp [on_handle_local_options, resolve_and_set, hv, hp, ha, hnf, hconv]
  · intro env opts u v hv hp ha hu hnf hconv
    simp [on_handle_local_options, resolve_and_set, hv, hp, ha, hu, hnf, hconv]

/-- Witness for the amended C8: an ASCII positional argument in the
identity-conversion environment is handed over unchanged. -/
theorem c8_resolved_value_is_utf8_conversion_amended_witness :
    on_handle_local_options sample_env
        { version := false, print_appid := false
        , arguments := some ["https://example.org"] } =
      LocalOptionsOutcome.continue_startup "https://example.org" :=
  c8_resolved_value_is_utf8_conversion_amended.1 sample_env
    { version := false, print_appid := false
    , arguments := some ["https://example.org"] }
    "https://example.org" "https://example.org" rfl rfl rfl rfl rfl


/-- Claim C1, code evaluation at the failing input: on a constructed
shell (context present), installing a handler for scheme foo and then
replacing it with a different handler swaps the stored handler and does
not raise, but the engine is asked to register the scheme a second
time, because the registered flag of the entry is never set to TRUE
after the first webkit_web_context_register_uri_scheme call. -/
theorem c1_replacing_handler_re_registers :
    (cog_shell_set_request_handler
        (cog_shell_set_request_handler base_shell "foo" 10) "foo" 11).request_handlers =
      [("foo", { handler := 11, registered := false })] ∧
    (cog_shell_set_request_handler
        (cog_shell_set_request_handler base_shell "foo" 10) "foo" 11).reg_calls =
      ["foo", "foo"] := by
  decide

/-- Claim C2, code evaluation at the failing input: a handler installed
on a constructed shell is registered with the context immediately (one
engine call), yet a subsequent startup registers the very same record
again — the record still carries registered = FALSE, so the foreach
loop re-emits the engine call instead of skipping the already
registered entry. -/
theorem c2_startup_re_registers_existing_entry :
    cog_shell_startup_base
        (cog_shell_set_request_handler base_shell "foo" 10) [] 3 =
      StartupOutcome.ok
        { web_settings := some 0
        , web_context := some 1
        , web_view := some { settings := some 0, context := some 1, view_id := 3 }
        , request_handlers := [("foo", { handler := 10, registered := false })]
        , reg_calls := ["foo", "foo"] } := by
  decide

/-- Counterexample for claim C5: one connected listener that returns no
view, followed by a listener that would return a view matching the
shell. The claim predicts the second view (first non-empty) — or, read
as no listener supplied a view, the default — is kept; the code instead
stops emission at the first listener, keeps NULL, and the startup
assertions abort the process, accepting no view at all. -/
theorem c5_empty_first_listener_aborts :
    cog_shell_startup_base base_shell
        [none, some { settings := some 0, context := some 1, view_id := 7 }] 9 =
      StartupOutcome.assertion_failure ∧
    cog_shell_startup_base base_shell
        [none, some { settings := some 0, context := some 1, view_id := 7 }] 9 ≠
      StartupOutcome.ok
        { base_shell with
          web_view := some { settings := some 0, context := some 1, view_id := 7 } } := by
  decide

/-- Claim C5 as amended: startup emits create-view with first-wins
semantics in the GLib sense — the value returned by the first listener
that runs is kept unconditionally and no further listener (nor the
default class handler) runs; when no listener is connected the default
view bound to the shell settings and context is constructed and kept;
a connected first listener whose matching view is non-empty becomes the
shell view. -/
theorem c5_create_view_first_wins_amended :
    (∀ (st : CogShellState) (fresh : Nat),
      cog_shell_startup_base st [] fresh =
        StartupOutcome.ok
          { st with
            reg_calls := st.reg_calls ++
              register_pending st.request_handlers st.web_context
          , web_view := some
              { settings := st.web_settings
              , context := st.web_context
              , view_id := fresh } }) ∧
    (∀ (st : CogShellState) (l : Option WebView) (rest : List (Option WebView))
        (fresh : Nat),
      cog_shell_startup_base st (l :: rest) fresh =
        cog_shell_startup_base st [l] fresh) ∧
    (∀ (st : CogShellState) (v : WebView) (rest : List (Option WebView))
        (fresh : Nat),
      v.settings = st.web_settings → v.context = st.web_context →
      cog_shell_startup_base st (some v :: rest) fresh =
        StartupOutcome.ok
          { st with
            reg_calls := st.reg_calls ++
              register_pending st.request_handlers st.web_context
          , web_view := some v }) := by
  refine ⟨?_, ?_, ?_⟩
  · intro st fresh
    simp [cog_shell_startup_base, emit_create_view, cog_shell_create_view_base,
      webkit_web_view_get_settings, webkit_web_view_get_context]
  · intro st l rest fresh
    rfl
  · intro st v rest fresh hs hc
    simp [cog_shell_startup_base, emit_create_view,
      webkit_web_view_get_settings, webkit_web_view_get_context, hs, hc]

/-- Witness for the amended C5: a single listener returning a matching
view on a freshly constructed shell; the view is kept. -/
theorem c5_create_view_first_wins_amended_witness :
    cog_shell_startup_base base_shell
        [some { settings := some 0, context := some 1, view_id := 4 }] 5 =
      StartupOutcome.ok
        { base_shell with
          reg_calls := base_shell.reg_calls ++
            register_pending base_shell.request_handlers base_shell.web_context
        , web_view := some { settings := some 0, context := some 1, view_id := 4 } } :=
  c5_create_view_first_wins_amended.2.2 base_shell
    { settings := some 0, context := some 1, view_id := 4 } [] 5 rfl rfl

/-- Claim C6: a listener that returns a view whose settings object or
context object differs from the ones the shell holds makes startup hit
a failed g_assert, aborting the process; the mismatched view is never
accepted as the shell view. -/
theorem c6_mismatched_view_aborts (st : CogShellState) (v : WebView)
    (rest : List (Option WebView)) (fresh : Nat)
    (hmis : v.settings ≠ st.web_settings ∨ v.context ≠ st.web_context) :
    cog_shell_startup_base st (some v :: rest) fresh =
      StartupOutcome.assertion_failure := by
  simp only [cog_shell_startup_base, emit_create_view,
    webkit_web_view_get_settings, webkit_web_view_get_context]
  rw [if_neg]
  intro hcon
  rcases hmis with h1 | h1
  · exact h1 hcon.1
  · exact h1 hcon.2

/-- Witness for C6: a view built against a different settings object. -/
theorem c6_mismatched_view_aborts_witness :
    cog_shell_startup_base base_shell
        [some { settings := some 5, context := some 1, view_id := 8 }] 2 =
      StartupOutcome.assertion_failure :=
  c6_mismatched_view_aborts base_shell
    { settings := some 5, context := some 1, view_id := 8 } [] 2
    (Or.inl (by decide))



/-- Claim C10, code evaluation at the failing input: with the program
name set to cog, a shell constructed with a null or absent name — via
g_object_new with the name property not passed at all (name_param =
none, so the pspec default NULL is assigned), and via cog_shell_new
with NULL (the property passed holding NULL) — ends up with name NULL
and with data and cache directories equal to the bare XDG base
directories, not to directories built from the program name. The
prgname default written by cog_shell_init is clobbered by the
construct-only property assignment on both paths, so the defaulting
branch at lines 368-374 is dead code and the claim it evidences never
holds. -/
theorem c10_prgname_default_is_dead :
    cog_shell_construct construct_env none =
      { name := none
      , data_dir := "/home/user/.local/share"
      , cache_dir := "/home/user/.cache" } ∧
    cog_shell_new construct_env none =
      { name := none
      , data_dir := "/home/user/.local/share"
      , cache_dir := "/home/user/.cache" } ∧
    (cog_shell_construct construct_env none).name ≠ some "cog" ∧
    (cog_shell_construct construct_env none).data_dir ≠
      "/home/user/.local/share" ++ "/" ++ "cog" := by
  decide
